import Mathlib

/-!
Verification of the `pre-commit-mcp` output-parsing pipeline.

This file is a shallow embedding, in Lean 4, of the pure logic of
`src/pre_commit_mcp/tools.py` and `src/pre_commit_mcp/server.py`.
Strings are Lean `String`s (Python `str` indexes code points, as Lean
`List Char` does); the filesystem and the two spawned processes
(`pre-commit run` and `git status --porcelain`) are modelled as an
explicit environment record carrying their observable outcomes; elapsed
wall-clock time (Python `time.time() - start_time`, a float) is carried
as an abstract rational that the pipeline only threads through.

First come helpers that mirror the Python string primitives used by the
source (`str.strip`, `str.split`, the `in` substring test, slicing,
`startswith`/`endswith`, `str.lower`), then the pipeline functions under
their source names, then the theorems.
-/

/-- Python `str.strip()` whitespace set (the ASCII part, which is all the
source's inputs use): space, tab, newline, carriage return, vertical tab,
form feed. -/
def pySpace (c : Char) : Bool :=
  c = ' ' || c = '\t' || c = '\n' || c = '\r' || c = '\x0b' || c = '\x0c'

/-- Python `str.strip()`: drop leading and trailing whitespace. -/
def pyStrip (s : String) : String :=
  String.mk (((s.data.dropWhile pySpace).reverse.dropWhile pySpace).reverse)

/-- List-level matching of a pattern against the front of a list
(Python `str.startswith`, at the character level). -/
def listPre : List Char → List Char → Bool
  | [], _ => true
  | _ :: _, [] => false
  | a :: as, b :: bs => a = b && listPre as bs

/-- List-level substring test. -/
def listHas (needle : List Char) : List Char → Bool
  | [] => listPre needle []
  | c :: t => listPre needle (c :: t) || listHas needle t

/-- Python `needle in hay` substring test on strings. -/
def strHas (hay needle : String) : Bool := listHas needle.data hay.data

/-- Python `s.startswith(p)`. -/
def strStarts (s p : String) : Bool := listPre p.data s.data

/-- Python `s.endswith(p)`. -/
def strEnds (s p : String) : Bool := listPre p.data.reverse s.data.reverse

/-- Python slicing `s[:n]` (by code points). -/
def strTake (s : String) (n : Nat) : String := String.mk (s.data.take n)

/-- Python slicing `s[n:]` (by code points). -/
def strDrop (s : String) (n : Nat) : String := String.mk (s.data.drop n)

/-- Helper for `splitLines`: accumulate the current piece (reversed). -/
def splitLinesAux : List Char → List Char → List String
  | [], cur => [String.mk cur.reverse]
  | c :: rest, cur =>
    if c = '\n' then String.mk cur.reverse :: splitLinesAux rest []
    else splitLinesAux rest (c :: cur)

/-- Python `s.split("\n")`: split on every newline, keeping empty pieces
(so `""` yields `[""]`, and a trailing newline yields a final `""`). -/
def splitLines (s : String) : List String := splitLinesAux s.data []

/-- Helper for `pySplit`: whitespace-run splitting, current word reversed. -/
def pySplitAux : List Char → List Char → List String
  | [], cur => if cur.isEmpty then [] else [String.mk cur.reverse]
  | c :: rest, cur =>
    if pySpace c then
      if cur.isEmpty then pySplitAux rest []
      else String.mk cur.reverse :: pySplitAux rest []
    else pySplitAux rest (c :: cur)

/-- Python `s.split()` with no argument: split on runs of whitespace,
discarding empty pieces. -/
def pySplit (s : String) : List String := pySplitAux s.data []

/-- Python `s.lower()` (ASCII case, which is all the parser compares). -/
def lowerStr (s : String) : String := String.mk (s.data.map Char.toLower)

/-! ## Output Sanitizer (`_strip_ansi_codes`, tools.py lines 156-159)

The source substitutes the regex `\x1B(?:[@-Z\\-_]|\[[0-?]*[ -\/]*[@-~])`
(the intermediate-byte class being space through slash; the slash is
escaped here only to keep this comment well formed) with `""`. The three
CSI character classes are pairwise disjoint, so the
greedy match never backtracks and the scan is deterministic: at each
position, either the pattern matches (and the matched characters are
dropped, the scan resuming after them) or the character is kept and the
scan advances by one. -/

/-- The ESC character, 0x1B. -/
def escChar : Char := '\x1b'

/-- Regex class `[@-Z\\-_]`: 0x40-0x5A or 0x5C-0x5F (a two-byte escape's
final byte). -/
def feByte (c : Char) : Bool :=
  (0x40 ≤ c.toNat && c.toNat ≤ 0x5A) || (0x5C ≤ c.toNat && c.toNat ≤ 0x5F)

/-- Regex class `[0-?]`: CSI parameter bytes 0x30-0x3F. -/
def csiParam (c : Char) : Bool := 0x30 ≤ c.toNat && c.toNat ≤ 0x3F

/-- Regex class `[ -\/]` (space through slash): CSI intermediate bytes
0x20-0x2F. -/
def csiInter (c : Char) : Bool := 0x20 ≤ c.toNat && c.toNat ≤ 0x2F

/-- Regex class `[@-~]`: CSI final bytes 0x40-0x7E. -/
def csiFinal (c : Char) : Bool := 0x40 ≤ c.toNat && c.toNat ≤ 0x7E

/-- Attempt the regex at the front of the list; `some n` means a match of
`n` characters (n ≥ 2). -/
def ansiMatch : List Char → Option Nat
  | [] => none
  | c :: rest =>
    if c = escChar then
      match rest with
      | [] => none
      | d :: rest2 =>
        if feByte d then some 2
        else if d = '[' then
          let ps := rest2.takeWhile csiParam
          let afterPs := rest2.drop ps.length
          let is := afterPs.takeWhile csiInter
          let afterIs := afterPs.drop is.length
          match afterIs with
          | [] => none
          | f :: _ => if csiFinal f then some (2 + ps.length + is.length + 1) else none
        else none
    else none

/-- The substitution scan. `fuel` bounds the number of steps; since every
step consumes at least one character, `fuel = l.length` always suffices,
and the fuel-exhausted branch is never reached on the wrapper below. -/
def stripFuel : Nat → List Char → List Char
  | 0, l => l
  | _ + 1, [] => []
  | fuel + 1, c :: rest =>
    match ansiMatch (c :: rest) with
    | some n => stripFuel fuel ((c :: rest).drop n)
    | none => c :: stripFuel fuel rest

/-- tools.py `_strip_ansi_codes`: remove ANSI escape sequences. -/
def _strip_ansi_codes (s : String) : String :=
  String.mk (stripFuel s.data.length s.data)

/-- The text contains no ESC (0x1B) character. -/
def noEsc (s : String) : Bool := s.data.all (fun c => !(c == escChar))

theorem ansiMatch_of_ne_esc {c : Char} (rest : List Char) (h : c ≠ escChar) :
    ansiMatch (c :: rest) = none := by
  simp [ansiMatch, h]

theorem stripFuel_of_noEsc (fuel : Nat) (l : List Char)
    (h : ∀ c ∈ l, c ≠ escChar) : stripFuel fuel l = l := by
  induction fuel generalizing l with
  | zero => rfl
  | succ fuel ih =>
    cases l with
    | nil => rfl
    | cons c rest =>
      have hc : c ≠ escChar := h c (List.mem_cons_self c rest)
      have hrest : ∀ x ∈ rest, x ≠ escChar := fun x hx => h x (List.mem_cons_of_mem c hx)
      simp [stripFuel, ansiMatch_of_ne_esc rest hc, ih rest hrest]

theorem noEsc_chars {s : String} (h : noEsc s = true) :
    ∀ c ∈ s.data, c ≠ escChar := by
  intro c hc
  have := (List.all_eq_true).mp h c hc
  simpa using this

/-- C4 counterexample: the sanitizer is not idempotent. On
`"\x1b\x1b[0m[0m"` the first pass removes the inner `ESC [0m`, which
juxtaposes the leading ESC with the trailing `[0m` into a fresh escape
sequence that a second pass removes. -/
theorem c4_counterexample :
    _strip_ansi_codes (_strip_ansi_codes "\x1b\x1b[0m[0m") ≠
      _strip_ansi_codes "\x1b\x1b[0m[0m" := by
  decide

/-- C4 (amended): the sanitizer is the identity on every string containing
no ESC byte, and consequently `strip (strip s) = strip s` holds whenever
the first pass's output contains no ESC byte; idempotence does not hold
unconditionally. -/
theorem c4_amended :
    (∀ s : String, noEsc s = true → _strip_ansi_codes s = s) ∧
    (∀ s : String, noEsc (_strip_ansi_codes s) = true →
      _strip_ansi_codes (_strip_ansi_codes s) = _strip_ansi_codes s) := by
  constructor
  · intro s h
    show String.mk (stripFuel s.data.length s.data) = s
    rw [stripFuel_of_noEsc s.data.length s.data (noEsc_chars h)]
  · intro s h
    show String.mk
        (stripFuel (_strip_ansi_codes s).data.length (_strip_ansi_codes s).data) =
      _strip_ansi_codes s
    rw [stripFuel_of_noEsc _ _ (noEsc_chars h)]

/-- C4 witness: concrete instances of both amended conjuncts. -/
theorem c4_amended_witness :
    _strip_ansi_codes "abc" = "abc" ∧
    _strip_ansi_codes (_strip_ansi_codes "\x1b[31mx\x1b[0m") =
      _strip_ansi_codes "\x1b[31mx\x1b[0m" :=
  ⟨c4_amended.1 "abc" (by decide), c4_amended.2 "\x1b[31mx\x1b[0m" (by decide)⟩

/-! ## Data model

`Summary`, `HookFailure` and `RunResult` mirror the dictionaries built by
tools.py. `RunResult` is the discriminated union the spec calls RunResult;
a payload key that Python includes only conditionally (`warnings`) is
carried as a list whose emptiness encodes the key's absence, and keys that
may hold Python `None` are carried as `Option`. -/

/-- tools.py `_extract_summary` result: the three counters. -/
structure Summary where
  hooks_passed : Nat
  hooks_failed : Nat
  hooks_skipped : Nat
deriving DecidableEq

/-- One entry of the list built by `_extract_failures`: keys `hook`,
`files`, `errors`. -/
structure HookFailure where
  hook : String
  files : List String
  errors : List String
deriving DecidableEq

/-- The dictionaries returned by `pre_commit_run` / `_parse_precommit_output`:
  * `success summary execution_time modified_files warnings`
  * `hooks_failed summary failures execution_time modified_files
    context_output warnings`
  * `timeout error execution_time partial-output` (the last component is
    the `partial_output` key, `none` encoding Python `None`)
  * `system_error error execution_time raw_output stderr` (the two
    options encode presence of the `raw_output` / `stderr` keys). -/
inductive RunResult where
  | success : Summary → Rat → List String → List String → RunResult
  | hooks_failed : Summary → List HookFailure → Rat → List String → String → List String → RunResult
  | timeout : String → Rat → Option String → RunResult
  | system_error : String → Rat → Option String → Option String → RunResult
deriving DecidableEq

/-- The `status` key of a result dictionary. -/
def RunResult.statusName : RunResult → String
  | .success .. => "success"
  | .hooks_failed .. => "hooks_failed"
  | .timeout .. => "timeout"
  | .system_error .. => "system_error"

/-- The `partial_output` key: `some v` when the key is present (only on
timeout results), the inner option being Python `None` vs a string. -/
def RunResult.truncOutputField : RunResult → Option (Option String)
  | .timeout _ _ p => some p
  | _ => none

/-! ## Summary counting (`_extract_summary`, tools.py lines 175-190) -/

/-- Loop body of `_extract_summary`: the if/elif chain classifying one
line, first match wins. -/
def summLine (s : Summary) (line : String) : Summary :=
  if strHas line "Passed" || strHas line "✓" || strHas line "PASSED" then
    ⟨s.hooks_passed + 1, s.hooks_failed, s.hooks_skipped⟩
  else if strHas line "Failed" || strHas line "✗" || strHas line "FAILED" then
    ⟨s.hooks_passed, s.hooks_failed + 1, s.hooks_skipped⟩
  else if strHas line "Skipped" || strHas line "SKIPPED" || strHas line "(no files to check)" then
    ⟨s.hooks_passed, s.hooks_failed, s.hooks_skipped + 1⟩
  else s

/-- tools.py `_extract_summary`: count status markers per line of the
output. -/
def _extract_summary (output : String) : Summary :=
  (splitLines output).foldl summLine ⟨0, 0, 0⟩

/-- Total of the three counters. -/
def sumCounters (s : Summary) : Nat := s.hooks_passed + s.hooks_failed + s.hooks_skipped

theorem summLine_le (s : Summary) (line : String) :
    sumCounters (summLine s line) ≤ sumCounters s + 1 := by
  obtain ⟨a, b, c⟩ := s
  unfold summLine sumCounters
  split_ifs <;> simp <;> omega

theorem foldl_summLine_le (lines : List String) :
    ∀ s : Summary, sumCounters (lines.foldl summLine s) ≤ sumCounters s + lines.length := by
  induction lines with
  | nil => intro s; simp
  | cons l ls ih =>
    intro s
    have h1 := ih (summLine s l)
    have h2 := summLine_le s l
    simp only [List.foldl_cons, List.length_cons]
    omega

/-- C6: each line increments at most one counter, with first-match-wins
precedence Passed/check-mark/PASSED over the others, so the counter total
is at most the number of lines of the text. -/
theorem c6_theorem :
    (∀ output : String,
      sumCounters (_extract_summary output) ≤ (splitLines output).length) ∧
    (∀ (s : Summary) (line : String),
      (strHas line "Passed" || strHas line "✓" || strHas line "PASSED") = true →
      summLine s line = ⟨s.hooks_passed + 1, s.hooks_failed, s.hooks_skipped⟩) := by
  constructor
  · intro output
    have := foldl_summLine_le (splitLines output) ⟨0, 0, 0⟩
    simpa [_extract_summary, sumCounters] using this
  · intro s line h
    simp [summLine, h]

/-- C6 witness: the bound at a concrete output, and precedence on a line
containing both "Passed" and "Failed". -/
theorem c6_witness :
    sumCounters (_extract_summary "a\nPassed") ≤ (splitLines "a\nPassed").length ∧
    summLine ⟨0, 0, 0⟩ "Passed Failed" = ⟨1, 0, 0⟩ :=
  ⟨c6_theorem.1 "a\nPassed", c6_theorem.2 ⟨0, 0, 0⟩ "Passed Failed" (by decide)⟩

/-! ## Failure grouping (`_extract_failures`, tools.py lines 193-258)

The Python loop keeps `current_hook` (initially `None`), `current_files`,
`current_errors` and the accumulated `failures` list. We model the loop
state as a record and each iteration as `failStep`. Python truthiness of
`current_hook` — falsy both for `None` and for the empty string — is
`truthyStr`. -/

/-- Python truthiness of the `current_hook` variable: `None` and `""` are
falsy. -/
def truthyStr : Option String → Bool
  | none => false
  | some s => !(s == "")

/-- A line opening a new failure block:
`line.strip().endswith(("FAILED", "Failed"))`. -/
def isTermLine (line : String) : Bool :=
  strEnds (pyStrip line) "FAILED" || strEnds (pyStrip line) "Failed"

/-- The new `current_hook`:
`line.split(".")[0].strip() if "." in line else line.strip()`. -/
def hookNameOf (line : String) : String :=
  if strHas line "." then pyStrip (String.mk (line.data.takeWhile (fun c => c ≠ '.')))
  else pyStrip line

/-- The file extensions the block parser looks for. -/
def extTokens : List String := [".py", ".yaml", ".yml", ".toml", ".json"]

/-- The lowercase error indicators of the block parser. -/
def errIndicators : List String :=
  ["error", "warning",
   "e0", "e1", "e2", "e3", "e4", "e5", "e6", "e7", "e8", "e9",
   "f0", "f1", "f2", "f3", "f4", "f5", "f6", "f7", "f8", "f9"]

/-- Inner loop over `parts = line.strip().split()`: append every token
containing one of the extensions, deduplicated against the list built so
far. -/
def addParts (files : List String) (parts : List String) : List String :=
  parts.foldl
    (fun fs p =>
      if extTokens.any (fun e => strHas p e) then
        if fs.contains p then fs else fs ++ [p]
      else fs)
    files

/-- Loop state of `_extract_failures`. -/
structure FailState where
  cur : Option String
  files : List String
  errs : List String
  acc : List HookFailure

/-- Flushing the open block: `failures.append({...})` guarded by
`if current_hook:`. -/
def emitCur (st : FailState) : List HookFailure :=
  if truthyStr st.cur then st.acc ++ [⟨st.cur.getD "", st.files, st.errs⟩] else st.acc

/-- One iteration of the `_extract_failures` loop. -/
def failStep (st : FailState) (line : String) : FailState :=
  if isTermLine line then
    ⟨some (hookNameOf line), [], [], emitCur st⟩
  else if truthyStr st.cur && !(pyStrip line == "") then
    if extTokens.any (fun e => strHas line e) then
      ⟨st.cur, addParts st.files (pySplit (pyStrip line)), st.errs, st.acc⟩
    else if errIndicators.any (fun i => strHas (lowerStr line) i) then
      ⟨st.cur, st.files, st.errs ++ [pyStrip line], st.acc⟩
    else st
  else st

/-- The loop over an explicit line list, then the final flush. -/
def _extract_failures_lines (lines : List String) : List HookFailure :=
  emitCur (lines.foldl failStep ⟨none, [], [], []⟩)

/-- tools.py `_extract_failures`: group failure details by hook. -/
def _extract_failures (output : String) : List HookFailure :=
  _extract_failures_lines (splitLines output)

/-- The hook names the state will eventually emit: those already
accumulated plus the open block's, if truthy. -/
def hooksOf (st : FailState) : List String :=
  st.acc.map (fun f => f.hook) ++ (if truthyStr st.cur then [st.cur.getD ""] else [])

theorem emitCur_hooks (st : FailState) :
    (emitCur st).map (fun f => f.hook) = hooksOf st := by
  unfold emitCur hooksOf
  split_ifs <;> simp

theorem hooksOf_failStep_term (st : FailState) (line : String)
    (h : isTermLine line = true) :
    hooksOf (failStep st line) =
      hooksOf st ++ (if hookNameOf line = "" then [] else [hookNameOf line]) := by
  have hL : hooksOf (failStep st line) =
      (emitCur st).map (fun f => f.hook) ++
        (if truthyStr (some (hookNameOf line)) then [hookNameOf line] else []) := by
    unfold failStep
    rw [if_pos h]
    rfl
  rw [hL, emitCur_hooks]
  congr 1
  rw [show truthyStr (some (hookNameOf line)) = !(hookNameOf line == "") from rfl]
  rcases hname : hookNameOf line == "" with _ | _
  · simp only [beq_eq_false_iff_ne, ne_eq] at hname
    simp [hname]
  · simp only [beq_iff_eq] at hname
    simp [hname]

theorem hooksOf_failStep_nonterm (st : FailState) (line : String)
    (h : isTermLine line = false) :
    hooksOf (failStep st line) = hooksOf st := by
  unfold failStep
  rw [if_neg (by simp [h])]
  split_ifs <;> rfl

theorem hooksOf_foldl (lines : List String) :
    ∀ st : FailState,
      hooksOf (lines.foldl failStep st) =
        hooksOf st ++
          List.filter (fun n => !(n == ""))
            (List.map hookNameOf (List.filter isTermLine lines)) := by
  induction lines with
  | nil => intro st; simp
  | cons l ls ih =>
    intro st
    simp only [List.foldl_cons]
    rw [ih (failStep st l)]
    rcases hterm : isTermLine l with _ | _
    · rw [hooksOf_failStep_nonterm st l hterm]
      simp [List.filter_cons, hterm]
    · rw [hooksOf_failStep_term st l hterm]
      rcases hname : hookNameOf l == "" with _ | _
      · simp only [beq_eq_false_iff_ne, ne_eq] at hname
        simp [List.filter_cons, hterm, List.filter, hname, List.append_assoc]
      · simp only [beq_iff_eq] at hname
        simp [List.filter_cons, hterm, List.filter, hname]

/-- C3 counterexample: the line `".Failed"` has a trimmed form ending in
"Failed", so the claim demands one emitted entry; but its computed hook
name — the trimmed substring before the first `.` — is empty, so
`current_hook` is falsy and the block is never flushed: zero entries. -/
theorem c3_counterexample :
    ((splitLines ".Failed").filter isTermLine).length = 1 ∧
    (_extract_failures ".Failed").length = 0 := by
  decide

/-- C3 (amended): the emitted hook names are exactly the computed names
(trimmed substring before the first `.`, or the whole trimmed line when no
`.` is present) of the terminator lines, restricted to the non-empty ones
— in particular the entry count equals the number of terminator lines
whose computed name is non-empty, not the number of all terminator lines —
and a lone terminator line with a non-empty computed name and no
subsequent content still emits an entry with empty `files` and `errors`. -/
theorem c3_amended (output : String) (line : String)
    (h1 : isTermLine line = true) (h2 : hookNameOf line ≠ "") :
    (_extract_failures output).map (fun f => f.hook) =
      List.filter (fun n => !(n == ""))
        (List.map hookNameOf (List.filter isTermLine (splitLines output))) ∧
    _extract_failures_lines [line] = [⟨hookNameOf line, [], []⟩] := by
  constructor
  · unfold _extract_failures _extract_failures_lines
    rw [emitCur_hooks, hooksOf_foldl]
    simp [hooksOf, truthyStr]
  · unfold _extract_failures_lines
    simp only [List.foldl_cons, List.foldl_nil]
    unfold failStep
    rw [if_pos h1]
    unfold emitCur
    rw [show truthyStr (some (hookNameOf line)) = !(hookNameOf line == "") from rfl]
    simp [truthyStr, h2]

/-- C3 witness: the amended statement at a concrete two-line output and a
concrete lone terminator line. -/
theorem c3_amended_witness :
    (_extract_failures "x.FAILED\nsome error here").map (fun f => f.hook) =
      List.filter (fun n => !(n == ""))
        (List.map hookNameOf
          (List.filter isTermLine (splitLines "x.FAILED\nsome error here"))) ∧
    _extract_failures_lines ["hook Failed"] = [⟨hookNameOf "hook Failed", [], []⟩] :=
  c3_amended "x.FAILED\nsome error here" "hook Failed" (by decide) (by decide)

/-! ## Environment and Process Runner (tools.py lines 59-105)

`_run_precommit_command` spawns `pre-commit run` and observes one of three
outcomes: normal completion (decoded stdout/stderr and an exit code), a
timeout (in which case `process.communicate()` raised before yielding any
output, the process is killed, and the function returns empty stdout —
whatever the child wrote before the deadline, carried here as `captured`,
never reaches the return value), or `FileNotFoundError` from spawning.
`git status --porcelain` either raises (tool missing, I/O error, or the
plain `decode("utf-8")` failing) or completes with an exit code the source
never inspects and a decoded stdout. -/

/-- Observable behavior of the external `pre-commit run` process. -/
inductive ProcBehavior where
  | completes : Int → String → String → ProcBehavior
  | timesOut : String → ProcBehavior
  | notFound : ProcBehavior
deriving DecidableEq

/-- Observable behavior of the `git status --porcelain` query. -/
inductive GitBehavior where
  | raises : GitBehavior
  | completes : Int → String → GitBehavior
deriving DecidableEq

/-- The dictionary returned by `_run_precommit_command`. -/
structure CommandResult where
  returncode : Int
  stdout : String
  stderr : String
  timed_out : Bool
deriving DecidableEq

/-- The ambient state of one invocation: the two filesystem existence
checks, the two external processes, and the elapsed wall-clock time (the
value of `time.time() - start_time`, threaded through unchanged). -/
structure Env where
  git_marker : Bool
  config_marker : Bool
  proc : ProcBehavior
  gitStatus : GitBehavior
  elapsed : Rat
deriving DecidableEq

/-- tools.py `_is_git_repository`: `Path(".git").exists()`. -/
def _is_git_repository (env : Env) : Bool := env.git_marker

/-- tools.py `_has_precommit_config`: `Path(".pre-commit-config.yaml").exists()`. -/
def _has_precommit_config (env : Env) : Bool := env.config_marker

/-- tools.py `_run_precommit_command`: run `pre-commit run` with the 60s
timeout. On timeout the returned stdout is `""` — the captured text is
discarded; on `FileNotFoundError` a normal result is returned, not an
exception. -/
def _run_precommit_command : ProcBehavior → CommandResult
  | .completes rc out err => ⟨rc, out, err, false⟩
  | .timesOut _captured => ⟨-1, "", "Process timed out", true⟩
  | .notFound => ⟨-1, "", "pre-commit command not found. Is pre-commit installed?", false⟩

/-! ## Modified-Files Reporter (`_get_modified_files`, tools.py lines 261-284) -/

/-- The `for line in stdout.split("\n")` accumulation loop. -/
def gmfLoop : List String → List String → List String
  | [], acc => acc
  | line :: rest, acc =>
    if !(pyStrip line == "") && !(strStarts line "??") then
      if !(pyStrip (strDrop line 3) == "") then
        gmfLoop rest (acc ++ [pyStrip (strDrop line 3)])
      else gmfLoop rest acc
    else gmfLoop rest acc

/-- tools.py `_get_modified_files`: outside a git repository return `[]`
immediately; inside, parse the porcelain status output line by line — the
exit code of the query is never read — and on any raised exception return
`[]`. -/
def _get_modified_files (env : Env) : List String :=
  if !(_is_git_repository env) then []
  else
    match env.gitStatus with
    | .raises => []
    | .completes _rc out => gmfLoop (splitLines out) []

/-! ## Result Classifier (`_parse_precommit_output`, tools.py lines 108-153) -/

/-- tools.py `_extract_warnings_and_info`: collect trimmed lines starting
with `[WARNING]` or `[INFO]`. -/
def _extract_warnings_and_info (output : String) : List String :=
  (splitLines output).foldl
    (fun msgs line =>
      if strStarts (pyStrip line) "[WARNING]" || strStarts (pyStrip line) "[INFO]" then
        msgs ++ [pyStrip line]
      else msgs)
    []

/-- tools.py `_parse_precommit_output`: sanitize both streams, then branch
on the exit code. The `warnings` key is included only when non-empty; an
empty list here encodes its absence. -/
def _parse_precommit_output (returncode : Int) (stdout stderr : String)
    (execution_time : Rat) (env : Env) : RunResult :=
  let clean_stdout := _strip_ansi_codes stdout
  let clean_stderr := _strip_ansi_codes stderr
  let warnings := _extract_warnings_and_info clean_stdout
  if returncode = 0 then
    .success (_extract_summary clean_stdout) execution_time (_get_modified_files env) warnings
  else if returncode = 1 then
    .hooks_failed (_extract_summary clean_stdout) (_extract_failures clean_stdout)
      execution_time (_get_modified_files env) (strTake clean_stdout 2000) warnings
  else
    .system_error "Pre-commit execution failed" execution_time
      (some clean_stdout) (some clean_stderr)

/-! ## Orchestrator (`pre_commit_run`, tools.py lines 14-56, and
`pre_commit_run_tool`, server.py lines 13-24) -/

/-- tools.py `pre_commit_run()`: the pipeline. Note the definition takes
no `force_non_git` parameter — the repository precheck is unconditional. -/
def pre_commit_run (env : Env) : RunResult :=
  if !(_is_git_repository env) then
    .system_error
      "Git repository not initialized. Please run 'git init' to initialize a repository."
      env.elapsed none none
  else if !(_has_precommit_config env) then
    .system_error "No .pre-commit-config.yaml found in current directory."
      env.elapsed none none
  else
    let result := _run_precommit_command env.proc
    if result.timed_out then
      .timeout "Pre-commit execution exceeded 60 seconds" env.elapsed
        (if !(result.stdout == "") then some (strTake result.stdout 1000) else none)
    else
      _parse_precommit_output result.returncode result.stdout result.stderr
        env.elapsed env

/-- Parameter count of the definition `async def pre_commit_run()`
(tools.py line 14): zero. -/
def pre_commit_run_paramCount : Nat := 0

/-- Positional arguments at the call site
`return await pre_commit_run(force_non_git)` (server.py line 24): one. -/
def pre_commit_run_callArgs : Nat := 1

/-- server.py `pre_commit_run_tool(force_non_git: bool = False)`: its body
is `return await pre_commit_run(force_non_git)`. Python raises `TypeError`
at such a call when the positional-argument count differs from the
callee's parameter count, and `pre_commit_run_tool` installs no handler,
so the error propagates to the caller; only if the counts agreed would the
pipeline's result be returned. -/
def pre_commit_run_tool (_force_non_git : Bool) (env : Env) : Except String RunResult :=
  if pre_commit_run_callArgs = pre_commit_run_paramCount then
    Except.ok (pre_commit_run env)
  else
    Except.error "TypeError: pre_commit_run() takes 0 positional arguments but 1 was given"

/-- C1 (code bug): every call of the exposed operation raises. The tool
wrapper passes one positional argument to a zero-parameter function, so
Python raises `TypeError` before the pipeline's `try` block is ever
entered, for every input — the claim (and the repository's own tests)
require a well-formed result instead. -/
theorem c1_code_bug (force_non_git : Bool) (env : Env) :
    pre_commit_run_tool force_non_git env =
      Except.error "TypeError: pre_commit_run() takes 0 positional arguments but 1 was given" :=
  rfl

/-- C2 (code bug): with `force_non_git = true` and no repository marker,
the exposed operation raises the arity `TypeError` instead of proceeding;
and the pipeline function itself, which lost the `force_non_git`
parameter, checks the repository marker unconditionally and returns the
repository-missing system_error — the precheck is never treated as
passed. -/
theorem c2_code_bug :
    pre_commit_run_tool true
        (Env.mk false true (ProcBehavior.completes 0 "ok" "") GitBehavior.raises 1) =
      Except.error "TypeError: pre_commit_run() takes 0 positional arguments but 1 was given" ∧
    pre_commit_run
        (Env.mk false true (ProcBehavior.completes 0 "ok" "") GitBehavior.raises 1) =
      RunResult.system_error
        "Git repository not initialized. Please run 'git init' to initialize a repository."
        1 none none :=
  ⟨rfl, rfl⟩

/-- C5 counterexample: at exit code 2 the error message carried is
"Pre-commit execution failed", not the fixed message "execution failed"
the claim states. -/
theorem c5_counterexample :
    _parse_precommit_output 2 "boom" "err" 1
        (Env.mk true true ProcBehavior.notFound GitBehavior.raises 1) =
      RunResult.system_error "Pre-commit execution failed" 1 (some "boom") (some "err") ∧
    "Pre-commit execution failed" ≠ "execution failed" := by
  constructor
  · rfl
  · decide

/-- C5 (amended): exit code 0 yields success; 1 yields hooks_failed with
the failures list and `context_output` the first 2000 characters of
sanitized stdout; every other exit code yields system_error carrying the
fixed message "Pre-commit execution failed" (which contains, but is not
equal to, "execution failed"), the full sanitized stdout as `raw_output`,
and the sanitized stderr. -/
theorem c5_amended (rc : Int) (stdout stderr : String) (t : Rat) (env : Env) :
    (rc = 0 → _parse_precommit_output rc stdout stderr t env =
      RunResult.success (_extract_summary (_strip_ansi_codes stdout)) t
        (_get_modified_files env)
        (_extract_warnings_and_info (_strip_ansi_codes stdout))) ∧
    (rc = 1 → _parse_precommit_output rc stdout stderr t env =
      RunResult.hooks_failed (_extract_summary (_strip_ansi_codes stdout))
        (_extract_failures (_strip_ansi_codes stdout)) t
        (_get_modified_files env) (strTake (_strip_ansi_codes stdout) 2000)
        (_extract_warnings_and_info (_strip_ansi_codes stdout))) ∧
    (rc ≠ 0 → rc ≠ 1 → _parse_precommit_output rc stdout stderr t env =
      RunResult.system_error "Pre-commit execution failed" t
        (some (_strip_ansi_codes stdout)) (some (_strip_ansi_codes stderr))) := by
  refine ⟨?_, ?_, ?_⟩
  · intro h; subst h; simp [_parse_precommit_output]
  · intro h; subst h; simp [_parse_precommit_output]
  · intro h0 h1; simp [_parse_precommit_output, h0, h1]

/-- C5 witness: all three branches at concrete inputs. -/
theorem c5_amended_witness :
    _parse_precommit_output 0 "a" "b" 1
        (Env.mk true true ProcBehavior.notFound GitBehavior.raises 1) =
      RunResult.success (_extract_summary (_strip_ansi_codes "a")) 1
        (_get_modified_files (Env.mk true true ProcBehavior.notFound GitBehavior.raises 1))
        (_extract_warnings_and_info (_strip_ansi_codes "a")) ∧
    _parse_precommit_output 1 "a" "b" 1
        (Env.mk true true ProcBehavior.notFound GitBehavior.raises 1) =
      RunResult.hooks_failed (_extract_summary (_strip_ansi_codes "a"))
        (_extract_failures (_strip_ansi_codes "a")) 1
        (_get_modified_files (Env.mk true true ProcBehavior.notFound GitBehavior.raises 1))
        (strTake (_strip_ansi_codes "a") 2000)
        (_extract_warnings_and_info (_strip_ansi_codes "a")) ∧
    _parse_precommit_output 7 "a" "b" 1
        (Env.mk true true ProcBehavior.notFound GitBehavior.raises 1) =
      RunResult.system_error "Pre-commit execution failed" 1
        (some (_strip_ansi_codes "a")) (some (_strip_ansi_codes "b")) :=
  ⟨(c5_amended 0 "a" "b" 1 (Env.mk true true ProcBehavior.notFound GitBehavior.raises 1)).1 rfl,
   (c5_amended 1 "a" "b" 1 (Env.mk true true ProcBehavior.notFound GitBehavior.raises 1)).2.1 rfl,
   (c5_amended 7 "a" "b" 1 (Env.mk true true ProcBehavior.notFound GitBehavior.raises 1)).2.2
     (by decide) (by decide)⟩

theorem timedOut_stdout_empty (p : ProcBehavior)
    (h : (_run_precommit_command p).timed_out = true) :
    (_run_precommit_command p).stdout = "" := by
  cases p <;> simp [_run_precommit_command] at h ⊢

/-- C7 counterexample: with the process timing out after writing
"Partial output", the result is a timeout whose `partial_output` key holds
Python `None`, not "Partial output" — the runner discarded the captured
text. -/
theorem c7_counterexample :
    (pre_commit_run
        (Env.mk true true (ProcBehavior.timesOut "Partial output") GitBehavior.raises 1)).statusName
      = "timeout" ∧
    (pre_commit_run
        (Env.mk true true (ProcBehavior.timesOut "Partial output") GitBehavior.raises 1)).truncOutputField
      = some none ∧
    (pre_commit_run
        (Env.mk true true (ProcBehavior.timesOut "Partial output") GitBehavior.raises 1)).truncOutputField
      ≠ some (some "Partial output") := by
  refine ⟨rfl, rfl, ?_⟩
  decide

/-- C7 (amended): whenever the Process Runner reports `timed_out = true`
(and the prechecks passed), the operation returns status timeout whose
`partial_output` is the first 1000 characters of the runner-reported
stdout when that is non-empty and `None` otherwise; since the runner
always reports empty stdout on timeout, `partial_output` is `None`. -/
theorem c7_amended (env : Env) (hg : env.git_marker = true)
    (hc : env.config_marker = true)
    (ht : (_run_precommit_command env.proc).timed_out = true) :
    pre_commit_run env =
      RunResult.timeout "Pre-commit execution exceeded 60 seconds" env.elapsed none := by
  have hs := timedOut_stdout_empty env.proc ht
  unfold pre_commit_run
  simp [_is_git_repository, _has_precommit_config, hg, hc, ht, hs]

/-- C7 witness: the amended statement at a concrete timing-out
environment. -/
theorem c7_amended_witness :
    pre_commit_run (Env.mk true true (ProcBehavior.timesOut "x") GitBehavior.raises 2) =
      RunResult.timeout "Pre-commit execution exceeded 60 seconds" 2 none :=
  c7_amended (Env.mk true true (ProcBehavior.timesOut "x") GitBehavior.raises 2)
    rfl rfl rfl

/-- C8: on every timeout the Process Runner returns empty stdout — the
output captured before termination is discarded — and consequently the
timeout result's `partial_output` key always holds Python `None`. -/
theorem c8_theorem (p : ProcBehavior) (env : Env)
    (hp : (_run_precommit_command p).timed_out = true)
    (hg : env.git_marker = true) (hc : env.config_marker = true)
    (he : (_run_precommit_command env.proc).timed_out = true) :
    (_run_precommit_command p).stdout = "" ∧
    (pre_commit_run env).truncOutputField = some none := by
  refine ⟨timedOut_stdout_empty p hp, ?_⟩
  have hs := timedOut_stdout_empty env.proc he
  unfold pre_commit_run
  simp [RunResult.truncOutputField, _is_git_repository, _has_precommit_config, hg, hc, hs, he]

/-- C8 witness: a concrete timing-out process and environment. -/
theorem c8_witness :
    (_run_precommit_command (ProcBehavior.timesOut "leftover")).stdout = "" ∧
    (pre_commit_run
        (Env.mk true true (ProcBehavior.timesOut "leftover") GitBehavior.raises 3)).truncOutputField
      = some none :=
  c8_theorem (ProcBehavior.timesOut "leftover")
    (Env.mk true true (ProcBehavior.timesOut "leftover") GitBehavior.raises 3)
    rfl rfl rfl rfl

/-- C9 counterexample: the source never reads the status query's exit
code, so a "failed" query (non-zero exit) that still produced porcelain
output does not yield the empty sequence the claim requires. -/
theorem c9_counterexample :
    _get_modified_files
        (Env.mk true true ProcBehavior.notFound (GitBehavior.completes 1 " M a.py") 0)
      = ["a.py"] ∧
    (["a.py"] : List String) ≠ ([] : List String) := by
  refine ⟨rfl, ?_⟩
  decide

/-- C9 (amended): the reporter is total (never raises); outside a
repository it returns the empty sequence, and when the query raises (tool
missing, I/O or decode error) it returns the empty sequence; the exit
code of a completed query is never examined — the parsed result is
independent of it (rather than becoming empty when it is non-zero). -/
theorem c9_amended :
    (∀ env : Env, env.git_marker = false → _get_modified_files env = []) ∧
    (∀ env : Env, env.gitStatus = GitBehavior.raises → _get_modified_files env = []) ∧
    (∀ (g c : Bool) (p : ProcBehavior) (rc rc2 : Int) (out : String) (t t2 : Rat),
      _get_modified_files (Env.mk g c p (GitBehavior.completes rc out) t) =
        _get_modified_files (Env.mk g c p (GitBehavior.completes rc2 out) t2)) := by
  refine ⟨?_, ?_, ?_⟩
  · intro env h
    simp [_get_modified_files, _is_git_repository, h]
  · intro env h
    simp [_get_modified_files, _is_git_repository, h]
  · intro g c p rc rc2 out t t2
    cases g <;> simp [_get_modified_files, _is_git_repository]

/-- C9 witness: the three amended conjuncts at concrete environments. -/
theorem c9_amended_witness :
    _get_modified_files (Env.mk false true ProcBehavior.notFound (GitBehavior.completes 0 "x") 0) = [] ∧
    _get_modified_files (Env.mk true true ProcBehavior.notFound GitBehavior.raises 0) = [] ∧
    _get_modified_files (Env.mk true true ProcBehavior.notFound (GitBehavior.completes 2 " M a.py") 0) =
      _get_modified_files (Env.mk true true ProcBehavior.notFound (GitBehavior.completes 3 " M a.py") 1) :=
  ⟨c9_amended.1 (Env.mk false true ProcBehavior.notFound (GitBehavior.completes 0 "x") 0) rfl,
   c9_amended.2.1 (Env.mk true true ProcBehavior.notFound GitBehavior.raises 0) rfl,
   c9_amended.2.2 true true ProcBehavior.notFound 2 3 " M a.py" 0 1⟩

/-- The contribution of one porcelain line: `line[3:].strip()` when the
line is non-blank, does not start with `??`, and the remainder is
non-empty; nothing otherwise. -/
def gmfEntry (line : String) : Option String :=
  if !(pyStrip line == "") && !(strStarts line "??") then
    if !(pyStrip (strDrop line 3) == "") then some (pyStrip (strDrop line 3)) else none
  else none

theorem gmfLoop_eq_filterMap (lines : List String) :
    ∀ acc : List String, gmfLoop lines acc = acc ++ lines.filterMap gmfEntry := by
  induction lines with
  | nil => intro acc; simp [gmfLoop]
  | cons l ls ih =>
    intro acc
    rcases h1 : (!(pyStrip l == "") && !(strStarts l "??")) with _ | _
    · simp [gmfLoop, gmfEntry, h1, ih, List.filterMap_cons]
    · rcases h2 : (!(pyStrip (strDrop l 3) == "")) with _ | _
      · simp [gmfLoop, gmfEntry, h1, h2, ih, List.filterMap_cons]
      · simp [gmfLoop, gmfEntry, h1, h2, ih, List.filterMap_cons, List.append_assoc]

/-- C10 counterexample: the porcelain line `" M"` is non-blank and does
not start with `??`, so the claim requires it to contribute exactly one
entry (the line minus its first 3 characters, trimmed — here the empty
string); the code contributes nothing because the remainder is empty. -/
theorem c10_counterexample :
    ((splitLines " M").filter (fun l => !(pyStrip l == "") && !(strStarts l "??"))).length = 1 ∧
    _get_modified_files
        (Env.mk true true ProcBehavior.notFound (GitBehavior.completes 0 " M") 0)
      = [] := by
  refine ⟨rfl, rfl⟩

/-- C10 (amended): inside a repository with a completed porcelain query,
every output line that is non-blank and does not start with `??`
contributes exactly one entry — the line with its first 3 characters
removed and trimmed — provided that remainder is non-empty; lines whose
remainder trims to empty contribute nothing. -/
theorem c10_amended (c : Bool) (p : ProcBehavior) (rc : Int) (t : Rat) (out : String) :
    _get_modified_files (Env.mk true c p (GitBehavior.completes rc out) t) =
      (splitLines out).filterMap gmfEntry := by
  show gmfLoop (splitLines out) [] = (splitLines out).filterMap gmfEntry
  rw [gmfLoop_eq_filterMap (splitLines out) []]
  simp
